import Mathlib

/-!
Shallow embedding of the city-generator export core (src/City.cpp together
with the data model of City.h) and proofs about it.

Modelling conventions:
* C++ `double` arithmetic is embedded as exact rational arithmetic (`ℚ`);
  every constant appearing in the source (0.49, 0.08, 1e-6, ...) is exactly
  representable as a double, and no claim under study depends on rounding.
* `std::sqrt` has no exact counterpart on `ℚ`, so every function that calls
  it takes an explicit parameter `sq : ℚ → ℚ` standing for the square-root
  routine; theorems that need square-root facts assume them at the points of
  use (for example `sq s * sq s = s`), which concrete witnesses discharge on
  perfect squares, where IEEE `sqrt` is exact.
* Machine integers (`std::size_t`, `std::uint32_t`) are embedded as `ℕ`,
  with `% 2 ^ 32` made explicit where the 32-bit width matters (GLB header
  fields).
* Text/binary output streams are embedded as lists of emitted records
  (`ObjLine`, bytes as `ℕ` below 256); file-system success/failure is out of
  scope of the claims studied here.
-/

/-! ## Data model (include/City.h) -/

/-- Land-use zone of a grid cell / building (enum `ZoneType`). -/
inductive ZoneType where
  | undeveloped
  | residential
  | commercial
  | industrial
  | green
deriving DecidableEq

/-- Facility kind (`Facility::Type`). -/
inductive FacilityType where
  | hospital
  | school
deriving DecidableEq

/-- A public facility: a position and a kind (struct `Facility`). -/
structure Facility where
  x : ℚ
  y : ℚ
  type : FacilityType
deriving DecidableEq

/-- Axis-aligned rectangle (struct `Rect`). -/
structure Rect where
  x0 : ℚ
  y0 : ℚ
  x1 : ℚ
  y1 : ℚ
deriving DecidableEq

def Rect.width (r : Rect) : ℚ := r.x1 - r.x0

def Rect.height (r : Rect) : ℚ := r.y1 - r.y0

def Rect.centreX (r : Rect) : ℚ := (r.x0 + r.x1) * 0.5

def Rect.centreY (r : Rect) : ℚ := (r.y0 + r.y1) * 0.5

/-- A building on a parcel (struct `Building`). -/
structure Building where
  footprint : Rect
  zone : ZoneType
  height : ℤ
  facility : Bool
  facilityType : FacilityType
deriving DecidableEq

/-- Road hierarchy level (enum `RoadType`). -/
inductive RoadType where
  | arterial
  | secondary
  | local
deriving DecidableEq

/-- A linear road segment (struct `RoadSegment`). -/
structure RoadSegment where
  x1 : ℚ
  y1 : ℚ
  x2 : ℚ
  y2 : ℚ
  type : RoadType
deriving DecidableEq

/-- Rendered road width per hierarchy level (`roadWidth` in City.h). -/
def roadWidth : RoadType → ℚ
  | RoadType.arterial => 1.6
  | RoadType.secondary => 1.2
  | RoadType.local => 0.8

/-- The city aggregate (class `City`): zoning grid, buildings, facilities,
roads.  Blocks are not consumed by any export routine and are omitted. -/
structure City where
  size : ℤ
  zones : List ZoneType
  buildings : List Building
  facilities : List Facility
  roads : List RoadSegment

/-! ## Shared helpers (City.cpp anonymous namespace) -/

/-- `std::clamp(v, lo, hi)`: `lo` if `v < lo`, else `hi` if `hi < v`, else
`v`. -/
def stdClamp (v lo hi : ℚ) : ℚ :=
  if v < lo then lo else if hi < v then hi else v

/-- `insetRect`: inset a rectangle by a fixed amount, clamping the applied
inset so the rectangle never flips (City.cpp lines 60-69). -/
def insetRect (r : Rect) (inset : ℚ) : Rect :=
  let maxInset := min r.width r.height * 0.49
  let applied := stdClamp inset 0 maxInset
  ⟨r.x0 + applied, r.y0 + applied, r.x1 - applied, r.y1 - applied⟩

/-- One entry of the fixed material palette (struct `MaterialDef`). -/
structure MaterialDef where
  name : String
  r : ℚ
  g : ℚ
  b : ℚ
  ks : ℚ
  shininess : ℚ
  metallic : ℚ
  roughness : ℚ
deriving DecidableEq

/-- The fixed material palette `kMaterialPalette`, in declaration order. -/
def kMaterialPalette : List MaterialDef :=
  [ ⟨"mat_default", 0.7, 0.7, 0.7, 0.05, 32, 0, 0.6⟩,
    ⟨"mat_commercial", 0.6, 0.65, 0.72, 0.5, 96, 0.05, 0.35⟩,
    ⟨"mat_residential", 0.83, 0.72, 0.62, 0.08, 48, 0, 0.55⟩,
    ⟨"mat_industrial", 0.32, 0.34, 0.36, 0.04, 24, 0.02, 0.75⟩,
    ⟨"mat_green", 0.3, 0.62, 0.34, 0.02, 12, 0, 0.7⟩,
    ⟨"mat_road", 0.15, 0.15, 0.15, 0.02, 12, 0, 0.8⟩ ]

/-- `materialForZone`: material palette entry name per zone. -/
def materialForZone : ZoneType → String
  | ZoneType.commercial => "mat_commercial"
  | ZoneType.residential => "mat_residential"
  | ZoneType.industrial => "mat_industrial"
  | ZoneType.green => "mat_green"
  | _ => "mat_default"

/-- `kRoadThickness`. -/
def kRoadThickness : ℚ := 0.05

/-! ## Text (OBJ) export: geometry records

`saveOBJ` writes vertex lines `v x y z` and 1-based face lines `f i j k`
through `writePrism`, threading a running vertex-index counter.  The stream
is embedded as a list of emitted geometry lines (`usemtl`/`mtllib` directive
lines carry no geometry and are not modelled). -/

/-- One geometry line of the OBJ stream. -/
inductive ObjLine where
  | v (x y z : ℚ)
  | f (i j k : ℕ)
deriving DecidableEq

/-- Indices referenced by a line (empty for vertex lines). -/
def ObjLine.idxList : ObjLine → List ℕ
  | ObjLine.v _ _ _ => []
  | ObjLine.f i j k => [i, j, k]

/-- Is the line a vertex record? -/
def ObjLine.isV : ObjLine → Bool
  | ObjLine.v _ _ _ => true
  | ObjLine.f _ _ _ => false

/-- Is the line a face record? -/
def ObjLine.isF : ObjLine → Bool
  | ObjLine.v _ _ _ => false
  | ObjLine.f _ _ _ => true

/-- A box extrusion as handed to `writePrism`: four base corners in winding
order plus base and top elevation. -/
structure Prism where
  base : List (ℚ × ℚ)
  baseZ : ℚ
  topZ : ℚ
deriving DecidableEq

/-- The four corners `writeRectPrism` derives from an axis-aligned
rectangle (City.cpp lines 48-57). -/
def rectBase (r : Rect) : List (ℚ × ℚ) :=
  [(r.x0, r.y0), (r.x1, r.y0), (r.x1, r.y1), (r.x0, r.y1)]

/-- `writePrism` (City.cpp lines 18-45): the 8 vertex lines and 12 face
lines emitted for one box, given the running vertex offset `off`. -/
def prismLines (p : Prism) (off : ℕ) : List ObjLine :=
  let c := fun i => p.base.getD i (0, 0)
  [ ObjLine.v (c 0).1 (c 0).2 p.baseZ,
    ObjLine.v (c 1).1 (c 1).2 p.baseZ,
    ObjLine.v (c 2).1 (c 2).2 p.baseZ,
    ObjLine.v (c 3).1 (c 3).2 p.baseZ,
    ObjLine.v (c 0).1 (c 0).2 p.topZ,
    ObjLine.v (c 1).1 (c 1).2 p.topZ,
    ObjLine.v (c 2).1 (c 2).2 p.topZ,
    ObjLine.v (c 3).1 (c 3).2 p.topZ,
    ObjLine.f off (off + 1) (off + 2),
    ObjLine.f off (off + 2) (off + 3),
    ObjLine.f (off + 4) (off + 7) (off + 6),
    ObjLine.f (off + 4) (off + 6) (off + 5),
    ObjLine.f off (off + 4) (off + 5),
    ObjLine.f off (off + 5) (off + 1),
    ObjLine.f (off + 1) (off + 5) (off + 6),
    ObjLine.f (off + 1) (off + 6) (off + 2),
    ObjLine.f (off + 2) (off + 6) (off + 7),
    ObjLine.f (off + 2) (off + 7) (off + 3),
    ObjLine.f (off + 3) (off + 7) (off + 4),
    ObjLine.f (off + 3) (off + 4) off ]

/-- Emit a list of prisms starting from vertex offset `off`, threading the
counter exactly as `saveOBJ` does (`vertexOffset += 8` per prism). -/
def emitPrisms : List Prism → ℕ → List ObjLine × ℕ
  | [], off => ([], off)
  | p :: ps, off =>
    let rest := emitPrisms ps (off + 8)
    (prismLines p off ++ rest.1, rest.2)

/-- Pair every prism with the vertex offset current when it is emitted. -/
def annotatePrisms : List Prism → ℕ → List (Prism × ℕ)
  | [], _ => []
  | p :: ps, off => (p, off) :: annotatePrisms ps (off + 8)

/-- Number of vertex lines in a list of OBJ lines. -/
def countV (l : List ObjLine) : ℕ := (l.filter ObjLine.isV).length

/-- Number of face lines in a list of OBJ lines. -/
def countF (l : List ObjLine) : ℕ := (l.filter ObjLine.isF).length

/-! ## Text export: archetype synthesis (the lambdas of `saveOBJ`) -/

/-- `emitStandard` in `saveOBJ`: one box from 0 to `max(1.0, height)`. -/
def objEmitStandard (b : Building) : List Prism :=
  [⟨rectBase b.footprint, 0, max 1 (b.height : ℚ)⟩]

/-- `emitPark` in `saveOBJ`: lawn pad plus two corner planters. -/
def objEmitPark (fp : Rect) : List Prism :=
  let margin := min fp.width fp.height * 0.08
  let lawn := insetRect fp margin
  let padHeight : ℚ := 0.08
  let baseSize := min lawn.width lawn.height * 0.2
  let planterSize := stdClamp baseSize 0.2 (min lawn.width lawn.height * 0.45)
  let planterA : Rect := ⟨lawn.x0, lawn.y0, lawn.x0 + planterSize, lawn.y0 + planterSize⟩
  let planterB : Rect := ⟨lawn.x1 - planterSize, lawn.y1 - planterSize, lawn.x1, lawn.y1⟩
  let planterHeight := padHeight * 2.5
  [ ⟨rectBase lawn, 0, padHeight⟩,
    ⟨rectBase planterA, padHeight, padHeight + planterHeight⟩,
    ⟨rectBase planterB, padHeight, padHeight + planterHeight⟩ ]

/-- `emitSchool` in `saveOBJ`: flat field plus an anchored school box. -/
def objEmitSchool (b : Building) : List Prism :=
  let fp := b.footprint
  let w := fp.width
  let h := fp.height
  let field := insetRect fp (min w h * 0.07)
  let fieldHeight : ℚ := 0.05
  let wide : Bool := h ≤ w
  let buildingW := if wide then w * 0.45 else w * 0.6
  let buildingH := if wide then h * 0.6 else h * 0.45
  let bx0 := fp.x0 + w * 0.08
  let by0 := fp.y0 + h * (if wide then 0.2 else 0.08)
  let bx1 := bx0 + buildingW
  let by1 := by0 + buildingH
  let maxX := fp.x1 - w * 0.05
  let maxY := fp.y1 - h * 0.05
  let shiftX := if maxX < bx1 then bx1 - maxX else 0
  let shiftY := if maxY < by1 then by1 - maxY else 0
  let buildingRect : Rect := ⟨bx0 - shiftX, by0 - shiftY, bx1 - shiftX, by1 - shiftY⟩
  let schoolHeight := max 2 (b.height : ℚ)
  [ ⟨rectBase field, 0, fieldHeight⟩,
    ⟨rectBase buildingRect, 0, schoolHeight⟩ ]

/-- `emitHospital` in `saveOBJ`: podium, main volume, wing volume. -/
def objEmitHospital (b : Building) : List Prism :=
  let fp := b.footprint
  let w := fp.width
  let h := fp.height
  let podium := insetRect fp (min w h * 0.08)
  let podiumTop := max 1.2 ((b.height : ℚ) * 0.25)
  let cx := fp.centreX
  let cy := fp.centreY
  let wide : Bool := h ≤ w
  let mainW := if wide then w * 0.7 else w * 0.45
  let mainH := if wide then h * 0.45 else h * 0.7
  let main : Rect := ⟨cx - mainW * 0.5, cy - mainH * 0.5, cx + mainW * 0.5, cy + mainH * 0.5⟩
  let mainTop := max (podiumTop + 2) (b.height : ℚ)
  let wingW := if wide then w * 0.28 else w * 0.85
  let wingH := if wide then h * 0.85 else h * 0.28
  let wing : Rect := ⟨cx - wingW * 0.5, cy - wingH * 0.5, cx + wingW * 0.5, cy + wingH * 0.5⟩
  let wingTop := max (podiumTop + 1.2) (mainTop * 0.9)
  [ ⟨rectBase podium, 0, podiumTop⟩,
    ⟨rectBase main, podiumTop, mainTop⟩,
    ⟨rectBase wing, podiumTop, wingTop⟩ ]

/-- Per-building dispatch of `saveOBJ` (City.cpp lines 332-350): skip
`None`, park for `Green`, school/hospital for facilities, generic box
otherwise. -/
def Building.objPrisms (b : Building) : List Prism :=
  if b.zone = ZoneType.undeveloped then []
  else if b.zone = ZoneType.green then objEmitPark b.footprint
  else if b.facility then
    if b.facilityType = FacilityType.hospital then objEmitHospital b
    else objEmitSchool b
  else objEmitStandard b

/-- Road emission of `saveOBJ` (City.cpp lines 353-372): skip segments with
`len < 1e-6`, otherwise extrude an oriented quad of half-width
`0.5 * roadWidth` around the centreline.  `sq` models `std::sqrt`. -/
def RoadSegment.objPrisms (sq : ℚ → ℚ) (road : RoadSegment) : List Prism :=
  let dx := road.x2 - road.x1
  let dy := road.y2 - road.y1
  let len := sq (dx * dx + dy * dy)
  if len < 1e-6 then []
  else
    let invLen := 1 / len
    let nx := -dy * invLen
    let ny := dx * invLen
    let halfWidth := 0.5 * roadWidth road.type
    let hx := nx * halfWidth
    let hy := ny * halfWidth
    [ ⟨[ (road.x1 + hx, road.y1 + hy),
         (road.x1 - hx, road.y1 - hy),
         (road.x2 - hx, road.y2 - hy),
         (road.x2 + hx, road.y2 + hy) ], 0, kRoadThickness⟩ ]

/-- All prisms `saveOBJ` emits for a city, in emission order: buildings
first, then roads. -/
def City.objPrisms (sq : ℚ → ℚ) (c : City) : List Prism :=
  c.buildings.flatMap Building.objPrisms ++ c.roads.flatMap (RoadSegment.objPrisms sq)

/-- The full geometry line stream of `saveOBJ` with its final counter; the
running vertex index starts at 1. -/
def City.objLines (sq : ℚ → ℚ) (c : City) : List ObjLine × ℕ :=
  emitPrisms (c.objPrisms sq) 1

/-! ## Binary (glTF) export: mesh accumulation -/

/-- 3D vector (struct `Vec3`). -/
structure Vec3 where
  x : ℚ
  y : ℚ
  z : ℚ
deriving DecidableEq

/-- `toGltfCoords`: map internal (X,Y horizontal, Z up) to glTF Y-up. -/
def toGltfCoords (x y z : ℚ) : Vec3 := ⟨x, z, y⟩

/-- Per-material accumulation buffer (struct `MeshBuffer`). -/
structure MeshBuffer where
  positions : List ℚ
  normals : List ℚ
  indices : List ℕ
  hasBounds : Bool
  minPos : Vec3
  maxPos : Vec3
deriving DecidableEq

/-- A default-constructed `MeshBuffer`. -/
def MeshBuffer.empty : MeshBuffer := ⟨[], [], [], false, ⟨0, 0, 0⟩, ⟨0, 0, 0⟩⟩

/-- `updateBounds` (City.cpp lines 171-184). -/
def updateBounds (buf : MeshBuffer) (p : Vec3) : MeshBuffer :=
  if buf.hasBounds = false then
    { buf with minPos := p, maxPos := p, hasBounds := true }
  else
    { buf with
      minPos := ⟨min buf.minPos.x p.x, min buf.minPos.y p.y, min buf.minPos.z p.z⟩,
      maxPos := ⟨max buf.maxPos.x p.x, max buf.maxPos.y p.y, max buf.maxPos.z p.z⟩ }

/-- The `pushPos` lambda of `appendTriangle`: append the three position
components and widen the bounds. -/
def pushPos (buf : MeshBuffer) (p : Vec3) : MeshBuffer :=
  updateBounds { buf with positions := buf.positions ++ [p.x, p.y, p.z] } p

/-- `appendTriangle` (City.cpp lines 186-205): three unshared vertices, one
normal repeated three times, three sequential indices. -/
def appendTriangle (buf : MeshBuffer) (p0 p1 p2 n : Vec3) : MeshBuffer :=
  let base := buf.positions.length / 3
  let b1 := pushPos (pushPos (pushPos buf p0) p1) p2
  let b2 := { b1 with normals := b1.normals ++ [n.x, n.y, n.z, n.x, n.y, n.z, n.x, n.y, n.z] }
  { b2 with indices := b2.indices ++ [base, base + 1, base + 2] }

/-- The 12 triangles (each with its face normal) that `appendRectPrism`
emits for a box, in emission order (City.cpp lines 207-241). -/
def boxTriangles (r : Rect) (baseZ topZ : ℚ) : List (Vec3 × Vec3 × Vec3 × Vec3) :=
  let p0 := toGltfCoords r.x0 r.y0 baseZ
  let p1 := toGltfCoords r.x1 r.y0 baseZ
  let p2 := toGltfCoords r.x1 r.y1 baseZ
  let p3 := toGltfCoords r.x0 r.y1 baseZ
  let p4 := toGltfCoords r.x0 r.y0 topZ
  let p5 := toGltfCoords r.x1 r.y0 topZ
  let p6 := toGltfCoords r.x1 r.y1 topZ
  let p7 := toGltfCoords r.x0 r.y1 topZ
  let nDown : Vec3 := ⟨0, -1, 0⟩
  let nUp : Vec3 := ⟨0, 1, 0⟩
  let nPosX : Vec3 := ⟨1, 0, 0⟩
  let nNegX : Vec3 := ⟨-1, 0, 0⟩
  let nPosZ : Vec3 := ⟨0, 0, 1⟩
  let nNegZ : Vec3 := ⟨0, 0, -1⟩
  [ (p0, p2, p1, nDown), (p0, p3, p2, nDown),
    (p4, p5, p6, nUp), (p4, p6, p7, nUp),
    (p1, p2, p6, nPosX), (p1, p6, p5, nPosX),
    (p3, p0, p4, nNegX), (p3, p4, p7, nNegX),
    (p2, p3, p7, nPosZ), (p2, p7, p6, nPosZ),
    (p0, p1, p5, nNegZ), (p0, p5, p4, nNegZ) ]

/-- `appendRectPrism` (City.cpp lines 207-241) as a fold of
`appendTriangle` over `boxTriangles`. -/
def appendRectPrism (buf : MeshBuffer) (r : Rect) (baseZ topZ : ℚ) : MeshBuffer :=
  (boxTriangles r baseZ topZ).foldl (fun b t => appendTriangle b t.1 t.2.1 t.2.2.1 t.2.2.2) buf

/-- The six distinct face normals used by `appendRectPrism`. -/
def boxFaceNormals : List Vec3 :=
  [⟨0, -1, 0⟩, ⟨0, 1, 0⟩, ⟨1, 0, 0⟩, ⟨-1, 0, 0⟩, ⟨0, 0, 1⟩, ⟨0, 0, -1⟩]

/-- Dot product on `Vec3`. -/
def dot (a b : Vec3) : ℚ := a.x * b.x + a.y * b.y + a.z * b.z

/-- Componentwise difference on `Vec3`. -/
def vsub (a b : Vec3) : Vec3 := ⟨a.x - b.x, a.y - b.y, a.z - b.z⟩

/-- Componentwise negation on `Vec3`. -/
def vneg (a : Vec3) : Vec3 := ⟨-a.x, -a.y, -a.z⟩

/-- Centroid of a triangle. -/
def triCentroid (p0 p1 p2 : Vec3) : Vec3 :=
  ⟨(p0.x + p1.x + p2.x) / 3, (p0.y + p1.y + p2.y) / 3, (p0.z + p1.z + p2.z) / 3⟩

/-- Centroid of the box extruded from `r` between `baseZ` and `topZ`, in
glTF coordinates. -/
def boxCentroid (r : Rect) (baseZ topZ : ℚ) : Vec3 :=
  ⟨(r.x0 + r.x1) / 2, (baseZ + topZ) / 2, (r.y0 + r.y1) / 2⟩

/-! ## Binary export: archetype synthesis (the lambdas of `saveGLTF`)

`saveGLTF` duplicates the archetype lambdas of `saveOBJ`, but every box is
routed to `appendRectPrism` on the buffer keyed by a material name.  A box
is recorded as (material name, rectangle, base elevation, top elevation). -/

/-- One accumulated box of the binary export. -/
def GBox : Type := String × Rect × ℚ × ℚ

/-- `emitStandard` in `saveGLTF`. -/
def gltfEmitStandard (b : Building) : List GBox :=
  [(materialForZone b.zone, b.footprint, 0, max 1 (b.height : ℚ))]

/-- `emitPark` in `saveGLTF`. -/
def gltfEmitPark (fp : Rect) : List GBox :=
  let margin := min fp.width fp.height * 0.08
  let lawn := insetRect fp margin
  let padHeight : ℚ := 0.08
  let baseSize := min lawn.width lawn.height * 0.2
  let planterSize := stdClamp baseSize 0.2 (min lawn.width lawn.height * 0.45)
  let planterA : Rect := ⟨lawn.x0, lawn.y0, lawn.x0 + planterSize, lawn.y0 + planterSize⟩
  let planterB : Rect := ⟨lawn.x1 - planterSize, lawn.y1 - planterSize, lawn.x1, lawn.y1⟩
  let planterHeight := padHeight * 2.5
  [ ("mat_green", lawn, 0, padHeight),
    ("mat_green", planterA, padHeight, padHeight + planterHeight),
    ("mat_green", planterB, padHeight, padHeight + planterHeight) ]

/-- `emitSchool` in `saveGLTF`. -/
def gltfEmitSchool (b : Building) : List GBox :=
  let fp := b.footprint
  let w := fp.width
  let h := fp.height
  let field := insetRect fp (min w h * 0.07)
  let fieldHeight : ℚ := 0.05
  let wide : Bool := h ≤ w
  let buildingW := if wide then w * 0.45 else w * 0.6
  let buildingH := if wide then h * 0.6 else h * 0.45
  let bx0 := fp.x0 + w * 0.08
  let by0 := fp.y0 + h * (if wide then 0.2 else 0.08)
  let bx1 := bx0 + buildingW
  let by1 := by0 + buildingH
  let maxX := fp.x1 - w * 0.05
  let maxY := fp.y1 - h * 0.05
  let shiftX := if maxX < bx1 then bx1 - maxX else 0
  let shiftY := if maxY < by1 then by1 - maxY else 0
  let buildingRect : Rect := ⟨bx0 - shiftX, by0 - shiftY, bx1 - shiftX, by1 - shiftY⟩
  let schoolHeight := max 2 (b.height : ℚ)
  [ (materialForZone b.zone, field, 0, fieldHeight),
    (materialForZone b.zone, buildingRect, 0, schoolHeight) ]

/-- `emitHospital` in `saveGLTF`. -/
def gltfEmitHospital (b : Building) : List GBox :=
  let fp := b.footprint
  let w := fp.width
  let h := fp.height
  let podium := insetRect fp (min w h * 0.08)
  let podiumTop := max 1.2 ((b.height : ℚ) * 0.25)
  let cx := fp.centreX
  let cy := fp.centreY
  let wide : Bool := h ≤ w
  let mainW := if wide then w * 0.7 else w * 0.45
  let mainH := if wide then h * 0.45 else h * 0.7
  let main : Rect := ⟨cx - mainW * 0.5, cy - mainH * 0.5, cx + mainW * 0.5, cy + mainH * 0.5⟩
  let mainTop := max (podiumTop + 2) (b.height : ℚ)
  let wingW := if wide then w * 0.28 else w * 0.85
  let wingH := if wide then h * 0.85 else h * 0.28
  let wing : Rect := ⟨cx - wingW * 0.5, cy - wingH * 0.5, cx + wingW * 0.5, cy + wingH * 0.5⟩
  let wingTop := max (podiumTop + 1.2) (mainTop * 0.9)
  [ (materialForZone b.zone, podium, 0, podiumTop),
    (materialForZone b.zone, main, podiumTop, mainTop),
    (materialForZone b.zone, wing, podiumTop, wingTop) ]

/-- Per-building dispatch of `saveGLTF` (City.cpp lines 449-464). -/
def Building.gltfBoxes (b : Building) : List GBox :=
  if b.zone = ZoneType.undeveloped then []
  else if b.zone = ZoneType.green then gltfEmitPark b.footprint
  else if b.facility then
    if b.facilityType = FacilityType.hospital then gltfEmitHospital b
    else gltfEmitSchool b
  else gltfEmitStandard b

/-- Road emission of `saveGLTF` (City.cpp lines 465-481): skip segments
with `len < 1e-6`, build the offset rectangle and normalise its bounds by
swapping when inverted. -/
def RoadSegment.gltfBoxes (sq : ℚ → ℚ) (road : RoadSegment) : List GBox :=
  let dx := road.x2 - road.x1
  let dy := road.y2 - road.y1
  let len := sq (dx * dx + dy * dy)
  if len < 1e-6 then []
  else
    let invLen := 1 / len
    let nx := -dy * invLen
    let ny := dx * invLen
    let halfWidth := 0.5 * roadWidth road.type
    let hx := nx * halfWidth
    let hy := ny * halfWidth
    let base0 : Rect := ⟨road.x1 + hx, road.y1 + hy, road.x2 - hx, road.y2 - hy⟩
    let base1 : Rect := if base0.x1 < base0.x0 then ⟨base0.x1, base0.y0, base0.x0, base0.y1⟩ else base0
    let base2 : Rect := if base1.y1 < base1.y0 then ⟨base1.x0, base1.y1, base1.x1, base1.y0⟩ else base1
    [("mat_road", base2, 0, kRoadThickness)]

/-- All material-keyed boxes `saveGLTF` accumulates for a city, in
traversal order: buildings first, then roads. -/
def City.gltfBoxes (sq : ℚ → ℚ) (c : City) : List GBox :=
  c.buildings.flatMap Building.gltfBoxes ++ c.roads.flatMap (RoadSegment.gltfBoxes sq)

/-- The `meshByMaterial` map after the traversal of `saveGLTF`: each box is
appended via `appendRectPrism` into the buffer keyed by its material. -/
def City.meshAccum (sq : ℚ → ℚ) (c : City) : String → MeshBuffer :=
  (c.gltfBoxes sq).foldl
    (fun m box s =>
      if s = box.1 then appendRectPrism (m s) box.2.1 box.2.2.1 box.2.2.2 else m s)
    (fun _ => MeshBuffer.empty)

/-- The filtered material list of `saveGLTF` (City.cpp lines 484-493):
palette entries whose accumulated buffer has a non-empty index list, in
palette order. -/
def City.gltfMaterials (sq : ℚ → ℚ) (c : City) : List MaterialDef :=
  kMaterialPalette.filter fun m => !(c.meshAccum sq m.name).indices.isEmpty

/-! ## GLB container framing (City.cpp lines 661-685) -/

/-- Pad a byte list to a 4-byte boundary with the byte `fill` (the
`while (size % 4 != 0) push_back(fill)` loops). -/
def pad4 (fill : ℕ) (l : List ℕ) : List ℕ :=
  l ++ List.replicate ((4 - l.length % 4) % 4) fill

/-- Little-endian serialization of a `std::uint32_t` field: four bytes of
the value reduced modulo `2 ^ 32`. -/
def le32 (n : ℕ) : List ℕ :=
  [n % 2 ^ 32 % 256, n % 2 ^ 32 / 256 % 256, n % 2 ^ 32 / 65536 % 256, n % 2 ^ 32 / 16777216 % 256]

/-- Read back a 4-byte little-endian field at byte offset `off`. -/
def rdLE32 (l : List ℕ) (off : ℕ) : ℕ :=
  l.getD off 0 + 256 * l.getD (off + 1) 0 + 65536 * l.getD (off + 2) 0 +
    16777216 * l.getD (off + 3) 0

/-- The ASCII bytes of the magic tag "glTF". -/
def glbMagic : List ℕ := [0x67, 0x6C, 0x54, 0x46]

/-- JSON chunk type tag. -/
def glbJsonType : ℕ := 0x4E4F534A

/-- BIN chunk type tag. -/
def glbBinType : ℕ := 0x004E4942

/-- The byte stream `saveGLTF` writes in binary mode, given the JSON text
bytes and the packed binary buffer: pad the JSON with spaces (0x20) and the
buffer with zeros to 4-byte boundaries, then frame header and both chunks
(City.cpp lines 661-685). -/
def glbFile (json bin : List ℕ) : List ℕ :=
  let jsonBytes := pad4 0x20 json
  let binData := pad4 0 bin
  let totalLength := 12 + (8 + jsonBytes.length) + (8 + binData.length)
  glbMagic ++ le32 2 ++ le32 totalLength ++
    le32 jsonBytes.length ++ le32 glbJsonType ++ jsonBytes ++
    le32 binData.length ++ le32 glbBinType ++ binData

/-! ## Summary statistics (`saveSummary`, City.cpp lines 699-784) -/

/-- School positions collected from the facility list. -/
def City.schoolPos (c : City) : List (ℚ × ℚ) :=
  (c.facilities.filter fun f => f.type = FacilityType.school).map fun f => (f.x, f.y)

/-- Hospital positions collected from the facility list. -/
def City.hospitalPos (c : City) : List (ℚ × ℚ) :=
  (c.facilities.filter fun f => f.type = FacilityType.hospital).map fun f => (f.x, f.y)

/-- The `nearest` lambda (City.cpp lines 727-737): `-1` on an empty point
list, otherwise the least `sq(dx*dx + dy*dy)` over the points.  The
`DBL_MAX` seed of the source is modelled by folding from the first
element's distance, which computes the same minimum.  `sq` models
`std::sqrt`. -/
def nearest (sq : ℚ → ℚ) (x y : ℚ) (pts : List (ℚ × ℚ)) : ℚ :=
  match pts with
  | [] => -1
  | p :: ps =>
    let d0 := sq ((x - p.1) * (x - p.1) + (y - p.2) * (y - p.2))
    ps.foldl
      (fun best q =>
        let d := sq ((x - q.1) * (x - q.1) + (y - q.2) * (y - q.2))
        if d < best then d else best)
      d0

/-- Worst residential distance to the nearest school (City.cpp lines
738-753): starts at `-1`, updated only for residential buildings and only
when the school list is non-empty. -/
def City.maxDistSchool (sq : ℚ → ℚ) (c : City) : ℚ :=
  c.buildings.foldl
    (fun acc b =>
      if b.zone = ZoneType.residential then
        if c.schoolPos.isEmpty then acc
        else
          let d := nearest sq b.footprint.centreX b.footprint.centreY c.schoolPos
          if acc < d then d else acc
      else acc)
    (-1)

/-- Worst residential distance to the nearest hospital. -/
def City.maxDistHospital (sq : ℚ → ℚ) (c : City) : ℚ :=
  c.buildings.foldl
    (fun acc b =>
      if b.zone = ZoneType.residential then
        if c.hospitalPos.isEmpty then acc
        else
          let d := nearest sq b.footprint.centreX b.footprint.centreY c.hospitalPos
          if acc < d then d else acc
      else acc)
    (-1)

/-- The residential buildings of a city, in aggregate order. -/
def City.residentials (c : City) : List Building :=
  c.buildings.filter fun b => b.zone = ZoneType.residential

/-! ## Concrete fixtures used by witnesses and counterexamples -/

/-- A square-root stand-in that is zero everywhere (valid wherever only
nonnegativity of `std::sqrt` matters). -/
def sqZ : ℚ → ℚ := fun _ => 0

/-- A square-root stand-in exact on the perfect squares 25 and 9 (IEEE
`sqrt` is exact there). -/
def sqW : ℚ → ℚ := fun v => if v = 25 then 5 else if v = 9 then 3 else 0

/-- A square-root stand-in exact on the perfect square 25. -/
def sqCE : ℚ → ℚ := fun v => if v = 25 then 5 else 0

/-- A diagonal local road of length 5 from (0,0) to (3,4). -/
def roadCE : RoadSegment := ⟨0, 0, 3, 4, RoadType.local⟩

/-- A degenerate road segment (both endpoints coincide). -/
def roadW0 : RoadSegment := ⟨0, 0, 0, 0, RoadType.local⟩

/-- A square-root stand-in exact on the perfect square 49. -/
def sqAx : ℚ → ℚ := fun v => if v = 49 then 7 else 0

/-- An axis-aligned arterial road of length 7 along the x axis. -/
def roadAx : RoadSegment := ⟨0, 0, 7, 0, RoadType.arterial⟩

/-- A residential building with footprint (0,0)-(2,2) and height 3. -/
def bW : Building := ⟨⟨0, 0, 2, 2⟩, ZoneType.residential, 3, false, FacilityType.hospital⟩

/-- A commercial building with footprint (0,0)-(2,2) and height 4. -/
def bC : Building := ⟨⟨0, 0, 2, 2⟩, ZoneType.commercial, 4, false, FacilityType.hospital⟩

/-- A city with one residential building, one school at (4,5) and one
hospital at (1,4); the building centre is (1,1). -/
def cityW : City :=
  ⟨2, [ZoneType.residential], [bW], [⟨4, 5, FacilityType.school⟩, ⟨1, 4, FacilityType.hospital⟩], []⟩

/-- A city with one commercial building and both facility kinds present. -/
def cityC8 : City :=
  ⟨2, [ZoneType.commercial], [bC], [⟨4, 5, FacilityType.school⟩, ⟨1, 4, FacilityType.hospital⟩], []⟩

/-- A city with one residential building and one diagonal road. -/
def cityRoads : City := ⟨2, [], [bW], [], [roadCE]⟩

/-! ## Helper lemmas -/

theorem stdClamp_bounds (v lo hi : ℚ) (h : lo ≤ hi) :
    lo ≤ stdClamp v lo hi ∧ stdClamp v lo hi ≤ hi := by
  unfold stdClamp
  split_ifs with h1 h2
  · exact ⟨le_refl lo, h⟩
  · exact ⟨h, le_refl hi⟩
  · exact ⟨by linarith, by linarith⟩

theorem insetRect_eq (r : Rect) (k : ℚ) :
    insetRect r k =
      ⟨r.x0 + stdClamp k 0 (min r.width r.height * 0.49),
       r.y0 + stdClamp k 0 (min r.width r.height * 0.49),
       r.x1 - stdClamp k 0 (min r.width r.height * 0.49),
       r.y1 - stdClamp k 0 (min r.width r.height * 0.49)⟩ := rfl

/-! ## C3 -/

/-- C3: for every rectangle with nonnegative width and height and every
inset amount `k ≥ 0`, `insetRect` clamps the applied inset to
`[0, 0.49 * min(width, height)]`, so the result keeps at least 2% of each
extent and the bounds never invert. -/
theorem insetRect_clamped_no_flip (r : Rect) (k : ℚ)
    (hw : 0 ≤ r.width) (hh : 0 ≤ r.height) (hk : 0 ≤ k) :
    0 ≤ (insetRect r k).x0 - r.x0
    ∧ (insetRect r k).x0 - r.x0 ≤ 0.49 * min r.width r.height
    ∧ 0.02 * r.width ≤ (insetRect r k).width
    ∧ 0.02 * r.height ≤ (insetRect r k).height
    ∧ (insetRect r k).x0 ≤ (insetRect r k).x1
    ∧ (insetRect r k).y0 ≤ (insetRect r k).y1 := by
  have hmin0 : (0 : ℚ) ≤ min r.width r.height := le_min hw hh
  have hhi : (0 : ℚ) ≤ min r.width r.height * 0.49 := by nlinarith
  obtain ⟨ha0, ha1⟩ := stdClamp_bounds k 0 (min r.width r.height * 0.49) hhi
  have hminw : min r.width r.height ≤ r.width := min_le_left _ _
  have hminh : min r.width r.height ≤ r.height := min_le_right _ _
  rw [insetRect_eq]
  simp only [Rect.width, Rect.height] at *
  refine ⟨by linarith, by linarith, by linarith, by linarith, by linarith, by linarith⟩

/-- Witness for C3 at the rectangle (0,0)-(2,1) and inset amount 10. -/
theorem insetRect_clamped_no_flip_w :
    0 ≤ (insetRect ⟨0, 0, 2, 1⟩ 10).x0 - (Rect.mk 0 0 2 1).x0
    ∧ (insetRect ⟨0, 0, 2, 1⟩ 10).x0 - (Rect.mk 0 0 2 1).x0 ≤
        0.49 * min (Rect.mk 0 0 2 1).width (Rect.mk 0 0 2 1).height
    ∧ 0.02 * (Rect.mk 0 0 2 1).width ≤ (insetRect ⟨0, 0, 2, 1⟩ 10).width
    ∧ 0.02 * (Rect.mk 0 0 2 1).height ≤ (insetRect ⟨0, 0, 2, 1⟩ 10).height
    ∧ (insetRect ⟨0, 0, 2, 1⟩ 10).x0 ≤ (insetRect ⟨0, 0, 2, 1⟩ 10).x1
    ∧ (insetRect ⟨0, 0, 2, 1⟩ 10).y0 ≤ (insetRect ⟨0, 0, 2, 1⟩ 10).y1 :=
  insetRect_clamped_no_flip ⟨0, 0, 2, 1⟩ 10 (by norm_num [Rect.width])
    (by norm_num [Rect.height]) (by norm_num)

/-! ## C9 -/

/-- C9: `insetRect` preserves the rectangle centre for every rectangle and
every inset amount (the same clamped inset is added on one side and
subtracted on the other). -/
theorem insetRect_preserves_centre (r : Rect) (k : ℚ) :
    (insetRect r k).centreX = r.centreX ∧ (insetRect r k).centreY = r.centreY := by
  rw [insetRect_eq]
  constructor <;> simp [Rect.centreX, Rect.centreY]

/-! ## C7 -/

/-- C7: a road segment whose endpoint distance is below 1e-6 (equivalently,
whose squared endpoint distance is below 1e-12) is silently skipped by both
the text and the binary export: it contributes no geometry at all.  `sq`
stands for `std::sqrt`, assumed nonnegative and exact on the squared
distance of this segment. -/
theorem degenerate_road_skipped (sq : ℚ → ℚ) (road : RoadSegment)
    (h0 : 0 ≤ sq ((road.x2 - road.x1) * (road.x2 - road.x1) +
      (road.y2 - road.y1) * (road.y2 - road.y1)))
    (h1 : sq ((road.x2 - road.x1) * (road.x2 - road.x1) +
        (road.y2 - road.y1) * (road.y2 - road.y1)) *
      sq ((road.x2 - road.x1) * (road.x2 - road.x1) +
        (road.y2 - road.y1) * (road.y2 - road.y1)) =
      (road.x2 - road.x1) * (road.x2 - road.x1) +
        (road.y2 - road.y1) * (road.y2 - road.y1))
    (h2 : (road.x2 - road.x1) * (road.x2 - road.x1) +
        (road.y2 - road.y1) * (road.y2 - road.y1) < 1e-12) :
    road.objPrisms sq = [] ∧ road.gltfBoxes sq = [] := by
  have hlt : sq ((road.x2 - road.x1) * (road.x2 - road.x1) +
      (road.y2 - road.y1) * (road.y2 - road.y1)) < 1e-6 := by
    by_contra hge
    push_neg at hge
    nlinarith
  constructor <;> simp [RoadSegment.objPrisms, RoadSegment.gltfBoxes, hlt]

/-- Witness for C7 at a zero-length road segment. -/
theorem degenerate_road_skipped_w :
    roadW0.objPrisms sqZ = [] ∧ roadW0.gltfBoxes sqZ = [] :=
  degenerate_road_skipped sqZ roadW0 (by norm_num [sqZ, roadW0])
    (by norm_num [sqZ, roadW0]) (by norm_num [roadW0])

/-! ## C4 -/

/-- C4: in binary (GLB) mode the 4-byte total-length field at offset 8
decodes to 12 + 8 + padded-JSON-length + 8 + padded-binary-length, which is
the actual number of serialized bytes; the version field decodes to 2; the
JSON chunk is padded with ASCII spaces (0x20) and the binary chunk with
zeros to 4-byte boundaries.  The hypothesis bounds the total below 2^32 —
the width of the `std::uint32_t` header field.  `json` and `bin` range over
the JSON text and packed buffer produced for any city aggregate. -/
theorem glb_total_length (json bin : List ℕ)
    (h : 12 + (8 + (pad4 0x20 json).length) + (8 + (pad4 0 bin).length) < 2 ^ 32) :
    rdLE32 (glbFile json bin) 8 =
      12 + (8 + (pad4 0x20 json).length) + (8 + (pad4 0 bin).length)
    ∧ (glbFile json bin).length =
      12 + (8 + (pad4 0x20 json).length) + (8 + (pad4 0 bin).length)
    ∧ rdLE32 (glbFile json bin) 4 = 2
    ∧ pad4 0x20 json = json ++ List.replicate ((4 - json.length % 4) % 4) 0x20
    ∧ pad4 0 bin = bin ++ List.replicate ((4 - bin.length % 4) % 4) 0
    ∧ (pad4 0x20 json).length % 4 = 0
    ∧ (pad4 0 bin).length % 4 = 0 := by
  refine ⟨?_, ?_, ?_, rfl, rfl, ?_, ?_⟩
  · simp only [glbFile, glbMagic, le32, rdLE32, List.cons_append, List.nil_append,
      List.getD_cons_succ, List.getD_cons_zero]
    omega
  · simp only [glbFile, glbMagic, le32, List.length_append, List.length_cons,
      List.length_nil]
    omega
  · simp only [glbFile, glbMagic, le32, rdLE32, List.cons_append, List.nil_append,
      List.getD_cons_succ, List.getD_cons_zero]
    omega
  · simp only [pad4, List.length_append, List.length_replicate]
    omega
  · simp only [pad4, List.length_append, List.length_replicate]
    omega

/-- Witness for C4 at a one-byte JSON text and an empty binary buffer. -/
theorem glb_total_length_w :
    rdLE32 (glbFile [123] ([] : List ℕ)) 8 =
      12 + (8 + (pad4 0x20 [123]).length) + (8 + (pad4 0 ([] : List ℕ)).length)
    ∧ (glbFile [123] ([] : List ℕ)).length =
      12 + (8 + (pad4 0x20 [123]).length) + (8 + (pad4 0 ([] : List ℕ)).length)
    ∧ rdLE32 (glbFile [123] ([] : List ℕ)) 4 = 2
    ∧ pad4 0x20 [123] = [123] ++ List.replicate ((4 - [123].length % 4) % 4) 0x20
    ∧ pad4 0 ([] : List ℕ) =
        ([] : List ℕ) ++ List.replicate ((4 - ([] : List ℕ).length % 4) % 4) 0
    ∧ (pad4 0x20 [123]).length % 4 = 0
    ∧ (pad4 0 ([] : List ℕ)).length % 4 = 0 :=
  glb_total_length [123] ([] : List ℕ) (by norm_num [pad4])

/-! ## C2 -/

@[simp]
theorem updateBounds_positions (buf : MeshBuffer) (p : Vec3) :
    (updateBounds buf p).positions = buf.positions := by
  unfold updateBounds; split <;> rfl

@[simp]
theorem updateBounds_normals (buf : MeshBuffer) (p : Vec3) :
    (updateBounds buf p).normals = buf.normals := by
  unfold updateBounds; split <;> rfl

@[simp]
theorem updateBounds_indices (buf : MeshBuffer) (p : Vec3) :
    (updateBounds buf p).indices = buf.indices := by
  unfold updateBounds; split <;> rfl

@[simp]
theorem pushPos_positions (buf : MeshBuffer) (p : Vec3) :
    (pushPos buf p).positions = buf.positions ++ [p.x, p.y, p.z] := by
  simp [pushPos]

@[simp]
theorem pushPos_normals (buf : MeshBuffer) (p : Vec3) :
    (pushPos buf p).normals = buf.normals := by
  simp [pushPos]

@[simp]
theorem pushPos_indices (buf : MeshBuffer) (p : Vec3) :
    (pushPos buf p).indices = buf.indices := by
  simp [pushPos]

@[simp]
theorem appendTriangle_positions_length (buf : MeshBuffer) (p0 p1 p2 n : Vec3) :
    (appendTriangle buf p0 p1 p2 n).positions.length = buf.positions.length + 9 := by
  simp [appendTriangle]

@[simp]
theorem appendTriangle_normals_length (buf : MeshBuffer) (p0 p1 p2 n : Vec3) :
    (appendTriangle buf p0 p1 p2 n).normals.length = buf.normals.length + 9 := by
  simp [appendTriangle]

@[simp]
theorem appendTriangle_indices_length (buf : MeshBuffer) (p0 p1 p2 n : Vec3) :
    (appendTriangle buf p0 p1 p2 n).indices.length = buf.indices.length + 3 := by
  simp [appendTriangle]

/-- C2 (amended): the text path (`writePrism`) emits exactly 8 vertex lines
and 12 face lines per box for any four base corners and any elevations; the
binary path (`appendRectPrism`) emits exactly 12 triangles whose vertices
are not shared — 36 position entries (108 floats), three per triangle,
drawn from the 8 box corners; and for a non-degenerate box
(`x0 < x1`, `y0 < y1`, `baseZ < topZ`) each of the 12 emitted triangles
carries a unit face normal pointing outward (positive dot product with the
vector from the box centroid to the triangle centroid), and any two of the
6 distinct face normals are orthogonal unless equal or opposite. -/
theorem box_extrusion_counts_and_normals (p : Prism) (off : ℕ) (buf : MeshBuffer)
    (r : Rect) (z0 z1 : ℚ) (h1 : r.x0 < r.x1) (h2 : r.y0 < r.y1) (h3 : z0 < z1) :
    countV (prismLines p off) = 8
    ∧ countF (prismLines p off) = 12
    ∧ (appendRectPrism buf r z0 z1).indices.length = buf.indices.length + 36
    ∧ (appendRectPrism buf r z0 z1).positions.length = buf.positions.length + 108
    ∧ (boxTriangles r z0 z1).length = 12
    ∧ (∀ t ∈ boxTriangles r z0 z1,
        dot t.2.2.2 t.2.2.2 = 1
        ∧ 0 < dot (vsub (triCentroid t.1 t.2.1 t.2.2.1) (boxCentroid r z0 z1)) t.2.2.2
        ∧ t.2.2.2 ∈ boxFaceNormals)
    ∧ (∀ n ∈ boxFaceNormals, ∀ m ∈ boxFaceNormals, n = m ∨ dot n m = 0 ∨ n = vneg m) := by
  refine ⟨rfl, rfl, ?_, ?_, rfl, ?_, ?_⟩
  · simp [appendRectPrism, boxTriangles]
  · simp [appendRectPrism, boxTriangles]
  · intro t ht
    simp only [boxTriangles, toGltfCoords, List.mem_cons, List.not_mem_nil, or_false] at ht
    rcases ht with rfl | rfl | rfl | rfl | rfl | rfl | rfl | rfl | rfl | rfl | rfl | rfl <;>
      refine ⟨by norm_num [dot], ?_, by norm_num [boxFaceNormals]⟩ <;>
      · simp only [dot, vsub, triCentroid, boxCentroid]
        ring_nf
        linarith
  · intro n hn m hm
    simp only [boxFaceNormals, List.mem_cons, List.not_mem_nil, or_false] at hn hm
    rcases hn with rfl | rfl | rfl | rfl | rfl | rfl <;>
      rcases hm with rfl | rfl | rfl | rfl | rfl | rfl <;>
      simp [dot, vneg]

/-- Counterexample for C2 as stated: a single box extrusion through the
binary path produces 36 vertices (108 position components), not 8, because
vertices are not shared between faces; moreover with an inverted elevation
pair (base above top, which the claim's "any base and top elevation"
admits) the first emitted triangle's normal points inward. -/
theorem box_extrusion_cex :
    (appendRectPrism MeshBuffer.empty ⟨0, 0, 1, 1⟩ 0 1).positions.length / 3 = 36
    ∧ ((appendRectPrism MeshBuffer.empty ⟨0, 0, 1, 1⟩ 0 1).positions.length / 3 = 8 → False)
    ∧ dot
        (vsub
          (triCentroid ((boxTriangles ⟨0, 0, 1, 1⟩ 1 0).getD 0 (⟨0,0,0⟩, ⟨0,0,0⟩, ⟨0,0,0⟩, ⟨0,0,0⟩)).1
            ((boxTriangles ⟨0, 0, 1, 1⟩ 1 0).getD 0 (⟨0,0,0⟩, ⟨0,0,0⟩, ⟨0,0,0⟩, ⟨0,0,0⟩)).2.1
            ((boxTriangles ⟨0, 0, 1, 1⟩ 1 0).getD 0 (⟨0,0,0⟩, ⟨0,0,0⟩, ⟨0,0,0⟩, ⟨0,0,0⟩)).2.2.1)
          (boxCentroid ⟨0, 0, 1, 1⟩ 1 0))
        ((boxTriangles ⟨0, 0, 1, 1⟩ 1 0).getD 0 (⟨0,0,0⟩, ⟨0,0,0⟩, ⟨0,0,0⟩, ⟨0,0,0⟩)).2.2.2 < 0 := by
  refine ⟨by simp [appendRectPrism, boxTriangles, MeshBuffer.empty], ?_, ?_⟩
  · simp [appendRectPrism, boxTriangles, MeshBuffer.empty]
  · norm_num [boxTriangles, toGltfCoords, dot, vsub, triCentroid, boxCentroid]

/-- Witness for C2 (amended) at the unit box extruded from 0 to 2. -/
theorem box_extrusion_counts_and_normals_w :
    countV (prismLines ⟨rectBase ⟨0, 0, 1, 1⟩, 0, 2⟩ 1) = 8
    ∧ countF (prismLines ⟨rectBase ⟨0, 0, 1, 1⟩, 0, 2⟩ 1) = 12
    ∧ (appendRectPrism MeshBuffer.empty ⟨0, 0, 1, 1⟩ 0 2).indices.length =
        MeshBuffer.empty.indices.length + 36
    ∧ (appendRectPrism MeshBuffer.empty ⟨0, 0, 1, 1⟩ 0 2).positions.length =
        MeshBuffer.empty.positions.length + 108
    ∧ (boxTriangles ⟨0, 0, 1, 1⟩ 0 2).length = 12
    ∧ (∀ t ∈ boxTriangles ⟨0, 0, 1, 1⟩ 0 2,
        dot t.2.2.2 t.2.2.2 = 1
        ∧ 0 < dot (vsub (triCentroid t.1 t.2.1 t.2.2.1) (boxCentroid ⟨0, 0, 1, 1⟩ 0 2)) t.2.2.2
        ∧ t.2.2.2 ∈ boxFaceNormals)
    ∧ (∀ n ∈ boxFaceNormals, ∀ m ∈ boxFaceNormals, n = m ∨ dot n m = 0 ∨ n = vneg m) :=
  box_extrusion_counts_and_normals ⟨rectBase ⟨0, 0, 1, 1⟩, 0, 2⟩ 1 MeshBuffer.empty
    ⟨0, 0, 1, 1⟩ 0 2 (by norm_num) (by norm_num) (by norm_num)

/-! ## C10 -/

theorem building_gltfBoxes_material_ne_default (b : Building) :
    ∀ box ∈ b.gltfBoxes, box.1 ≠ "mat_default" := by
  intro box hbox
  unfold Building.gltfBoxes at hbox
  split_ifs at hbox with h1 h2 h3 h4
  · simp at hbox
  · simp only [gltfEmitPark, List.mem_cons, List.not_mem_nil, or_false] at hbox
    rcases hbox with rfl | rfl | rfl <;> simp
  · cases hz : b.zone <;> simp [hz] at h1 h2 ⊢ <;>
      simp only [gltfEmitHospital, hz, List.mem_cons, List.not_mem_nil, or_false] at hbox <;>
      rcases hbox with rfl | rfl | rfl <;> simp [materialForZone]
  · cases hz : b.zone <;> simp [hz] at h1 h2 ⊢ <;>
      simp only [gltfEmitSchool, hz, List.mem_cons, List.not_mem_nil, or_false] at hbox <;>
      rcases hbox with rfl | rfl <;> simp [materialForZone]
  · cases hz : b.zone <;> simp [hz] at h1 h2 ⊢ <;>
      simp only [gltfEmitStandard, hz, List.mem_cons, List.not_mem_nil, or_false] at hbox <;>
      rcases hbox with rfl <;> simp [materialForZone]

theorem road_gltfBoxes_material_road (sq : ℚ → ℚ) (road : RoadSegment) :
    ∀ box ∈ road.gltfBoxes sq, box.1 = "mat_road" := by
  intro box hbox
  simp only [RoadSegment.gltfBoxes] at hbox
  split_ifs at hbox <;>
    simp only [List.mem_cons, List.not_mem_nil, or_false] at hbox <;>
    subst hbox <;> rfl

theorem gltfBoxes_material_ne_default (sq : ℚ → ℚ) (c : City) :
    ∀ box ∈ c.gltfBoxes sq, box.1 ≠ "mat_default" := by
  intro box hbox
  unfold City.gltfBoxes at hbox
  rw [List.mem_append] at hbox
  rcases hbox with hbox | hbox
  · rw [List.mem_flatMap] at hbox
    obtain ⟨b, _, hb⟩ := hbox
    exact building_gltfBoxes_material_ne_default b box hb
  · rw [List.mem_flatMap] at hbox
    obtain ⟨road, _, hr⟩ := hbox
    rw [road_gltfBoxes_material_road sq road box hr]
    simp

theorem accum_untouched (boxes : List GBox) (s : String)
    (h : ∀ box ∈ boxes, box.1 ≠ s) (m : String → MeshBuffer) :
    (boxes.foldl
      (fun m box t =>
        if t = box.1 then appendRectPrism (m t) box.2.1 box.2.2.1 box.2.2.2 else m t)
      m) s = m s := by
  induction boxes generalizing m with
  | nil => rfl
  | cons box rest ih =>
    have hne : s ≠ box.1 := fun hs => h box (List.mem_cons_self box rest) (hs ▸ rfl)
    have := ih (fun q hq => h q (List.mem_cons_of_mem box hq))
      (fun t => if t = box.1 then appendRectPrism (m t) box.2.1 box.2.2.1 box.2.2.2 else m t)
    simpa [List.foldl_cons, hne] using this

/-- C10: the binary export's filtered material list never contains
"mat_default": buildings with zone `None` contribute nothing, every other
zone maps to a dedicated named material, and roads accumulate under
"mat_road", so the default palette entry accumulates no triangles and is
filtered out. -/
theorem gltf_materials_no_default (sq : ℚ → ℚ) (c : City) :
    "mat_default" ∉ (c.gltfMaterials sq).map MaterialDef.name := by
  intro hmem
  rw [List.mem_map] at hmem
  obtain ⟨m, hm, hname⟩ := hmem
  rw [City.gltfMaterials, List.mem_filter] at hm
  obtain ⟨hpal, hind⟩ := hm
  have hempty : (c.meshAccum sq m.name) = MeshBuffer.empty := by
    rw [City.meshAccum, hname]
    exact accum_untouched (c.gltfBoxes sq) "mat_default"
      (gltfBoxes_material_ne_default sq c) (fun _ => MeshBuffer.empty)
  rw [hempty] at hind
  simp [MeshBuffer.empty] at hind

/-- Witness for C10 at a city with one residential building and one
diagonal road. -/
theorem gltf_materials_no_default_w :
    "mat_default" ∉ (cityRoads.gltfMaterials sqCE).map MaterialDef.name :=
  gltf_materials_no_default sqCE cityRoads

/-! ## C5 -/

theorem emitPrisms_snd (ps : List Prism) (off : ℕ) :
    (emitPrisms ps off).2 = off + 8 * ps.length := by
  induction ps generalizing off with
  | nil => simp [emitPrisms]
  | cons p rest ih =>
    simp only [emitPrisms, List.length_cons, ih]
    ring

theorem emitPrisms_fst (ps : List Prism) (off : ℕ) :
    (emitPrisms ps off).1 = (annotatePrisms ps off).flatMap fun q => prismLines q.1 q.2 := by
  induction ps generalizing off with
  | nil => simp [emitPrisms, annotatePrisms]
  | cons p rest ih => simp [emitPrisms, annotatePrisms, ih]

theorem countV_append (a b : List ObjLine) : countV (a ++ b) = countV a + countV b := by
  simp [countV, List.filter_append]

theorem countV_prismLines (p : Prism) (off : ℕ) : countV (prismLines p off) = 8 := rfl

theorem countV_emitPrisms (ps : List Prism) (off : ℕ) :
    countV (emitPrisms ps off).1 = 8 * ps.length := by
  induction ps generalizing off with
  | nil => simp [emitPrisms, countV]
  | cons p rest ih =>
    simp only [emitPrisms, countV_append, countV_prismLines, List.length_cons, ih]
    ring

theorem annotatePrisms_offset_bounds (ps : List Prism) (off : ℕ) :
    ∀ q ∈ annotatePrisms ps off, off ≤ q.2 ∧ q.2 + 8 ≤ off + 8 * ps.length := by
  induction ps generalizing off with
  | nil => simp [annotatePrisms]
  | cons p rest ih =>
    intro q hq
    simp only [annotatePrisms, List.mem_cons] at hq
    rcases hq with rfl | hq
    · simp only [List.length_cons]
      omega
    · have := ih (off + 8) q hq
      simp only [List.length_cons]
      omega

theorem prismLines_idx_bounds (p : Prism) (off : ℕ) :
    ∀ ln ∈ prismLines p off, ∀ i ∈ ln.idxList, off ≤ i ∧ i < off + 8 := by
  intro ln hln i hi
  simp only [prismLines, List.mem_cons, List.not_mem_nil, or_false] at hln
  rcases hln with rfl | rfl | rfl | rfl | rfl | rfl | rfl | rfl | rfl | rfl | rfl | rfl | rfl |
    rfl | rfl | rfl | rfl | rfl | rfl | rfl <;>
    simp only [ObjLine.idxList, List.mem_cons, List.not_mem_nil, or_false] at hi <;>
    omega

/-- C5: the text export threads a 1-based vertex counter incremented by
exactly 8 per emitted box; the final counter minus 1 equals the number of
vertex lines written, the line stream decomposes into the per-box blocks at
their recorded offsets, and every face index of a box lies in
`[that box's first vertex offset, that offset + 8)` and below the final
counter — so every face references an already-written vertex. -/
theorem obj_vertex_counter_invariants (sq : ℚ → ℚ) (c : City) :
    (c.objLines sq).2 = 1 + 8 * (c.objPrisms sq).length
    ∧ (c.objLines sq).2 - 1 = countV (c.objLines sq).1
    ∧ (c.objLines sq).1 =
        ((annotatePrisms (c.objPrisms sq) 1).flatMap fun q => prismLines q.1 q.2)
    ∧ ∀ q ∈ annotatePrisms (c.objPrisms sq) 1, ∀ ln ∈ prismLines q.1 q.2, ∀ i ∈ ln.idxList,
        q.2 ≤ i ∧ i < q.2 + 8 ∧ i < (c.objLines sq).2 := by
  refine ⟨emitPrisms_snd _ 1, ?_, emitPrisms_fst _ 1, ?_⟩
  · rw [City.objLines, emitPrisms_snd, countV_emitPrisms]
    omega
  · intro q hq ln hln i hi
    obtain ⟨h1, h2⟩ := annotatePrisms_offset_bounds (c.objPrisms sq) 1 q hq
    obtain ⟨h3, h4⟩ := prismLines_idx_bounds q.1 q.2 ln hln i hi
    rw [City.objLines, emitPrisms_snd]
    exact ⟨h3, h4, by omega⟩

/-- Witness for C5 at the one-building city `cityW`. -/
theorem obj_vertex_counter_invariants_w :
    (cityW.objLines sqZ).2 = 1 + 8 * (cityW.objPrisms sqZ).length
    ∧ (cityW.objLines sqZ).2 - 1 = countV (cityW.objLines sqZ).1
    ∧ (cityW.objLines sqZ).1 =
        ((annotatePrisms (cityW.objPrisms sqZ) 1).flatMap fun q => prismLines q.1 q.2)
    ∧ ∀ q ∈ annotatePrisms (cityW.objPrisms sqZ) 1, ∀ ln ∈ prismLines q.1 q.2, ∀ i ∈ ln.idxList,
        q.2 ≤ i ∧ i < q.2 + 8 ∧ i < (cityW.objLines sqZ).2 :=
  obj_vertex_counter_invariants sqZ cityW

/-! ## C8 -/

theorem foldl_skip_nonres (g : ℚ → Building → ℚ) (l : List Building) (acc : ℚ)
    (h : ∀ b ∈ l, b.zone ≠ ZoneType.residential) :
    l.foldl (fun a b => if b.zone = ZoneType.residential then g a b else a) acc = acc := by
  induction l generalizing acc with
  | nil => rfl
  | cons b rest ih =>
    have hb := h b (List.mem_cons_self b rest)
    simp only [List.foldl_cons, if_neg hb]
    exact ih acc fun q hq => h q (List.mem_cons_of_mem b hq)

/-- C8: when a city has no residential buildings, the summary reports
`maxDistanceToSchool = -1` and `maxDistanceToHospital = -1` even when
facilities of those kinds exist, because the distance accumulators are only
ever updated inside the residential branch; the -1 sentinel therefore does
not distinguish "no facilities" from "no residential buildings". -/
theorem maxdist_no_residential (sq : ℚ → ℚ) (c : City)
    (h : ∀ b ∈ c.buildings, b.zone ≠ ZoneType.residential) :
    c.maxDistSchool sq = -1 ∧ c.maxDistHospital sq = -1 := by
  constructor
  · rw [City.maxDistSchool]
    exact foldl_skip_nonres _ c.buildings (-1) h
  · rw [City.maxDistHospital]
    exact foldl_skip_nonres _ c.buildings (-1) h

/-- Witness for C8 at a city with one commercial building and both a
school and a hospital facility. -/
theorem maxdist_no_residential_w :
    cityC8.maxDistSchool sqZ = -1 ∧ cityC8.maxDistHospital sqZ = -1 :=
  maxdist_no_residential sqZ cityC8 (by
    intro b hb
    simp only [cityC8, List.mem_cons, List.not_mem_nil, or_false] at hb
    subst hb
    simp [bC])

/-! ## C6 -/

theorem foldl_minstep_mem (l : List ℚ) (a : ℚ) :
    l.foldl (fun best d => if d < best then d else best) a = a ∨
    l.foldl (fun best d => if d < best then d else best) a ∈ l := by
  induction l generalizing a with
  | nil => exact Or.inl rfl
  | cons d rest ih =>
    simp only [List.foldl_cons]
    rcases ih (if d < a then d else a) with h | h
    · rw [h]
      split_ifs
      · exact Or.inr (List.mem_cons_self d rest)
      · exact Or.inl rfl
    · exact Or.inr (List.mem_cons_of_mem d h)

theorem foldl_minstep_le (l : List ℚ) (a : ℚ) :
    l.foldl (fun best d => if d < best then d else best) a ≤ a ∧
    ∀ d ∈ l, l.foldl (fun best d => if d < best then d else best) a ≤ d := by
  induction l generalizing a with
  | nil => simp
  | cons e rest ih =>
    simp only [List.foldl_cons]
    obtain ⟨h1, h2⟩ := ih (if e < a then e else a)
    constructor
    · split_ifs at h1 ⊢ with he
      · linarith
      · exact h1
    · intro d hd
      rcases List.mem_cons.mp hd with rfl | hd
      · split_ifs at h1 ⊢ with he
        · exact h1
        · push_neg at he
          linarith
      · exact h2 d hd

theorem foldl_maxstep_mem (l : List ℚ) (a : ℚ) :
    l.foldl (fun acc d => if acc < d then d else acc) a = a ∨
    l.foldl (fun acc d => if acc < d then d else acc) a ∈ l := by
  induction l generalizing a with
  | nil => exact Or.inl rfl
  | cons d rest ih =>
    simp only [List.foldl_cons]
    rcases ih (if a < d then d else a) with h | h
    · rw [h]
      split_ifs
      · exact Or.inr (List.mem_cons_self d rest)
      · exact Or.inl rfl
    · exact Or.inr (List.mem_cons_of_mem d h)

theorem foldl_maxstep_ge (l : List ℚ) (a : ℚ) :
    a ≤ l.foldl (fun acc d => if acc < d then d else acc) a ∧
    ∀ d ∈ l, d ≤ l.foldl (fun acc d => if acc < d then d else acc) a := by
  induction l generalizing a with
  | nil => simp
  | cons e rest ih =>
    simp only [List.foldl_cons]
    obtain ⟨h1, h2⟩ := ih (if a < e then e else a)
    constructor
    · split_ifs at h1 ⊢ with he
      · linarith
      · exact h1
    · intro d hd
      rcases List.mem_cons.mp hd with rfl | hd
      · split_ifs at h1 ⊢ with he
        · exact h1
        · push_neg at he
          linarith
      · exact h2 d hd

theorem nearest_is_min (sq : ℚ → ℚ) (x y : ℚ) (pts : List (ℚ × ℚ)) (h : pts ≠ []) :
    nearest sq x y pts ∈
      pts.map (fun p => sq ((x - p.1) * (x - p.1) + (y - p.2) * (y - p.2)))
    ∧ ∀ d ∈ pts.map (fun p => sq ((x - p.1) * (x - p.1) + (y - p.2) * (y - p.2))),
        nearest sq x y pts ≤ d := by
  match pts with
  | [] => exact absurd rfl h
  | p :: ps =>
    have hfold : nearest sq x y (p :: ps) =
        (ps.map fun q => sq ((x - q.1) * (x - q.1) + (y - q.2) * (y - q.2))).foldl
          (fun best d => if d < best then d else best)
          (sq ((x - p.1) * (x - p.1) + (y - p.2) * (y - p.2))) := by
      rw [nearest, List.foldl_map]
    constructor
    · rw [hfold, List.map_cons]
      rcases foldl_minstep_mem
          (ps.map fun q => sq ((x - q.1) * (x - q.1) + (y - q.2) * (y - q.2)))
          (sq ((x - p.1) * (x - p.1) + (y - p.2) * (y - p.2))) with hm | hm
      · rw [hm]
        exact List.mem_cons_self _ _
      · exact List.mem_cons_of_mem _ hm
    · intro d hd
      rw [List.map_cons] at hd
      obtain ⟨h1, h2⟩ := foldl_minstep_le
        (ps.map fun q => sq ((x - q.1) * (x - q.1) + (y - q.2) * (y - q.2)))
        (sq ((x - p.1) * (x - p.1) + (y - p.2) * (y - p.2)))
      rcases List.mem_cons.mp hd with rfl | hd
      · rw [hfold]
        exact h1
      · rw [hfold]
        exact h2 d hd

theorem fold_resmax_eq (nd : Building → ℚ) (eb : Bool) (heb : eb = false)
    (l : List Building) (acc : ℚ) :
    l.foldl
      (fun a b => if b.zone = ZoneType.residential then
        (if eb then a else (if a < nd b then nd b else a)) else a) acc =
    ((l.filter fun b => b.zone = ZoneType.residential).map nd).foldl
      (fun a d => if a < d then d else a) acc := by
  subst heb
  induction l generalizing acc with
  | nil => rfl
  | cons b rest ih =>
    by_cases hb : b.zone = ZoneType.residential
    · have hd : decide (b.zone = ZoneType.residential) = true := decide_eq_true hb
      rw [List.foldl_cons, if_pos hb, if_neg Bool.false_ne_true, List.filter_cons,
        if_pos hd, List.map_cons, List.foldl_cons]
      exact ih _
    · have hd : ¬decide (b.zone = ZoneType.residential) = true := by simpa using hb
      rw [List.foldl_cons, if_neg hb, List.filter_cons, if_neg hd]
      exact ih acc

theorem fold_resmax_empty (nd : Building → ℚ) (eb : Bool) (heb : eb = true)
    (l : List Building) (acc : ℚ) :
    l.foldl
      (fun a b => if b.zone = ZoneType.residential then
        (if eb then a else (if a < nd b then nd b else a)) else a) acc = acc := by
  subst heb
  induction l generalizing acc with
  | nil => rfl
  | cons b rest ih =>
    by_cases hb : b.zone = ZoneType.residential
    · rw [List.foldl_cons, if_pos hb, if_pos rfl]
      exact ih acc
    · rw [List.foldl_cons, if_neg hb]
      exact ih acc

theorem maxfold_spec (L : List ℚ) (hL : L ≠ []) (hpos : ∀ d ∈ L, 0 ≤ d) :
    L.foldl (fun a d => if a < d then d else a) (-1) ∈ L
    ∧ ∀ d ∈ L, d ≤ L.foldl (fun a d => if a < d then d else a) (-1) := by
  obtain ⟨hge1, hge2⟩ := foldl_maxstep_ge L (-1)
  refine ⟨?_, hge2⟩
  rcases foldl_maxstep_mem L (-1) with h | h
  · exfalso
    obtain ⟨d0, hd0⟩ := List.exists_mem_of_ne_nil L hL
    have h1 := hge2 d0 hd0
    rw [h] at h1
    have h2 := hpos d0 hd0
    linarith
  · exact h

/-- C6: in the summary, `maxDistanceToSchool` (resp. `maxDistanceToHospital`)
equals -1 when the corresponding facility list is empty, and otherwise — as
long as at least one residential building exists — equals the maximum over
all residential buildings of the value `nearest` computes at the building's
footprint centre, where `nearest` is proved (third conjunct) to be the
minimum of the per-facility Euclidean distances `sq(dx*dx + dy*dy)`.  `sq`
stands for `std::sqrt` and is assumed nonnegative, as the real square root
is. -/
theorem summary_max_distance (sq : ℚ → ℚ) (c : City) (hsq : ∀ v, 0 ≤ sq v) :
    (c.schoolPos = [] → c.maxDistSchool sq = -1)
    ∧ (c.hospitalPos = [] → c.maxDistHospital sq = -1)
    ∧ (∀ x y : ℚ, ∀ pts : List (ℚ × ℚ), pts ≠ [] →
        nearest sq x y pts ∈
          pts.map (fun p => sq ((x - p.1) * (x - p.1) + (y - p.2) * (y - p.2)))
        ∧ ∀ d ∈ pts.map (fun p => sq ((x - p.1) * (x - p.1) + (y - p.2) * (y - p.2))),
            nearest sq x y pts ≤ d)
    ∧ (c.schoolPos ≠ [] → c.residentials ≠ [] →
        c.maxDistSchool sq ∈ c.residentials.map
          (fun b => nearest sq b.footprint.centreX b.footprint.centreY c.schoolPos)
        ∧ ∀ d ∈ c.residentials.map
            (fun b => nearest sq b.footprint.centreX b.footprint.centreY c.schoolPos),
            d ≤ c.maxDistSchool sq)
    ∧ (c.hospitalPos ≠ [] → c.residentials ≠ [] →
        c.maxDistHospital sq ∈ c.residentials.map
          (fun b => nearest sq b.footprint.centreX b.footprint.centreY c.hospitalPos)
        ∧ ∀ d ∈ c.residentials.map
            (fun b => nearest sq b.footprint.centreX b.footprint.centreY c.hospitalPos),
            d ≤ c.maxDistHospital sq) := by
  refine ⟨?_, ?_, ?_, ?_, ?_⟩
  · intro hs
    have he : c.schoolPos.isEmpty = true := by rw [hs]; rfl
    rw [City.maxDistSchool]
    exact fold_resmax_empty
      (fun b => nearest sq b.footprint.centreX b.footprint.centreY c.schoolPos)
      c.schoolPos.isEmpty he c.buildings (-1)
  · intro hs
    have he : c.hospitalPos.isEmpty = true := by rw [hs]; rfl
    rw [City.maxDistHospital]
    exact fold_resmax_empty
      (fun b => nearest sq b.footprint.centreX b.footprint.centreY c.hospitalPos)
      c.hospitalPos.isEmpty he c.buildings (-1)
  · intro x y pts hpts
    exact nearest_is_min sq x y pts hpts
  · intro hs hr
    have he : c.schoolPos.isEmpty = false := by
      cases hcp : c.schoolPos with
      | nil => exact absurd hcp hs
      | cons a l => rfl
    have heq : c.maxDistSchool sq =
        (c.residentials.map
          (fun b => nearest sq b.footprint.centreX b.footprint.centreY c.schoolPos)).foldl
          (fun a d => if a < d then d else a) (-1) := by
      rw [City.maxDistSchool, City.residentials]
      exact fold_resmax_eq
        (fun b => nearest sq b.footprint.centreX b.footprint.centreY c.schoolPos)
        c.schoolPos.isEmpty he c.buildings (-1)
    have hL : c.residentials.map
        (fun b => nearest sq b.footprint.centreX b.footprint.centreY c.schoolPos) ≠ [] :=
      fun hnil => hr (by simpa using hnil)
    have hpos : ∀ d ∈ c.residentials.map
        (fun b => nearest sq b.footprint.centreX b.footprint.centreY c.schoolPos), 0 ≤ d := by
      intro d hd
      rw [List.mem_map] at hd
      obtain ⟨b, _, rfl⟩ := hd
      have hmem := (nearest_is_min sq b.footprint.centreX b.footprint.centreY
        c.schoolPos hs).1
      rw [List.mem_map] at hmem
      obtain ⟨p, _, hpe⟩ := hmem
      rw [← hpe]
      exact hsq _
    obtain ⟨m1, m2⟩ := maxfold_spec _ hL hpos
    rw [heq]
    exact ⟨m1, m2⟩
  · intro hs hr
    have he : c.hospitalPos.isEmpty = false := by
      cases hcp : c.hospitalPos with
      | nil => exact absurd hcp hs
      | cons a l => rfl
    have heq : c.maxDistHospital sq =
        (c.residentials.map
          (fun b => nearest sq b.footprint.centreX b.footprint.centreY c.hospitalPos)).foldl
          (fun a d => if a < d then d else a) (-1) := by
      rw [City.maxDistHospital, City.residentials]
      exact fold_resmax_eq
        (fun b => nearest sq b.footprint.centreX b.footprint.centreY c.hospitalPos)
        c.hospitalPos.isEmpty he c.buildings (-1)
    have hL : c.residentials.map
        (fun b => nearest sq b.footprint.centreX b.footprint.centreY c.hospitalPos) ≠ [] :=
      fun hnil => hr (by simpa using hnil)
    have hpos : ∀ d ∈ c.residentials.map
        (fun b => nearest sq b.footprint.centreX b.footprint.centreY c.hospitalPos), 0 ≤ d := by
      intro d hd
      rw [List.mem_map] at hd
      obtain ⟨b, _, rfl⟩ := hd
      have hmem := (nearest_is_min sq b.footprint.centreX b.footprint.centreY
        c.hospitalPos hs).1
      rw [List.mem_map] at hmem
      obtain ⟨p, _, hpe⟩ := hmem
      rw [← hpe]
      exact hsq _
    obtain ⟨m1, m2⟩ := maxfold_spec _ hL hpos
    rw [heq]
    exact ⟨m1, m2⟩

/-- Witness for C6 at the city `cityW` (one residential building centred at
(1,1), a school at (4,5) at exact distance 5 and a hospital at (1,4) at
exact distance 3), with a square root exact on 25 and 9. -/
theorem summary_max_distance_w :
    (cityW.schoolPos = [] → cityW.maxDistSchool sqW = -1)
    ∧ (cityW.hospitalPos = [] → cityW.maxDistHospital sqW = -1)
    ∧ (∀ x y : ℚ, ∀ pts : List (ℚ × ℚ), pts ≠ [] →
        nearest sqW x y pts ∈
          pts.map (fun p => sqW ((x - p.1) * (x - p.1) + (y - p.2) * (y - p.2)))
        ∧ ∀ d ∈ pts.map (fun p => sqW ((x - p.1) * (x - p.1) + (y - p.2) * (y - p.2))),
            nearest sqW x y pts ≤ d)
    ∧ (cityW.schoolPos ≠ [] → cityW.residentials ≠ [] →
        cityW.maxDistSchool sqW ∈ cityW.residentials.map
          (fun b => nearest sqW b.footprint.centreX b.footprint.centreY cityW.schoolPos)
        ∧ ∀ d ∈ cityW.residentials.map
            (fun b => nearest sqW b.footprint.centreX b.footprint.centreY cityW.schoolPos),
            d ≤ cityW.maxDistSchool sqW)
    ∧ (cityW.hospitalPos ≠ [] → cityW.residentials ≠ [] →
        cityW.maxDistHospital sqW ∈ cityW.residentials.map
          (fun b => nearest sqW b.footprint.centreX b.footprint.centreY cityW.hospitalPos)
        ∧ ∀ d ∈ cityW.residentials.map
            (fun b => nearest sqW b.footprint.centreX b.footprint.centreY cityW.hospitalPos),
            d ≤ cityW.maxDistHospital sqW) :=
  summary_max_distance sqW cityW (by
    intro v
    simp only [sqW]
    split_ifs <;> norm_num)

/-! ## C1 -/

/-- C1 (amended): for every building, the binary export accumulates exactly
the boxes (same base rectangle corners, same base and top elevations) that
the text export writes — the archetype synthesis is identical, and the
(x,y,z) to (x,z,y) remap happens only when a box is turned into triangle
vertices.  For a non-degenerate road segment the correspondence holds when
the segment is axis-aligned: the box corner sets of the two exporters
coincide and the elevations agree.  (For diagonal segments the exporters
genuinely differ; see the counterexample.) -/
theorem obj_gltf_same_boxes (b : Building) (sq : ℚ → ℚ) (road : RoadSegment)
    (hskip : ¬ sq ((road.x2 - road.x1) * (road.x2 - road.x1) +
      (road.y2 - road.y1) * (road.y2 - road.y1)) < 1e-6)
    (haxis : road.y2 - road.y1 = 0 ∨ road.x2 - road.x1 = 0) :
    (b.gltfBoxes.map fun q => Prism.mk (rectBase q.2.1) q.2.2.1 q.2.2.2) = b.objPrisms
    ∧ (road.objPrisms sq).length = 1
    ∧ (road.gltfBoxes sq).length = 1
    ∧ ∀ P ∈ road.objPrisms sq, ∀ Q ∈ road.gltfBoxes sq,
        P.baseZ = Q.2.2.1 ∧ P.topZ = Q.2.2.2
        ∧ ∀ pt : ℚ × ℚ, (pt ∈ P.base ↔ pt ∈ rectBase Q.2.1) := by
  obtain ⟨x1, y1, x2, y2, ty⟩ := road
  refine ⟨?_, ?_, ?_, ?_⟩
  · rcases b with ⟨fp, zone, ht, fac, ft⟩
    cases zone <;> cases fac <;> cases ft <;> rfl
  · simp only [RoadSegment.objPrisms, if_neg hskip]
    rfl
  · simp only [RoadSegment.gltfBoxes, if_neg hskip]
    rfl
  · rcases haxis with hdy | hdx
    · have hy : y2 = y1 := by linarith
      subst hy
      intro P hP Q hQ
      simp only [RoadSegment.objPrisms, RoadSegment.gltfBoxes, if_neg hskip,
        List.mem_cons, List.not_mem_nil, or_false] at hP hQ
      subst hP
      subst hQ
      refine ⟨rfl, rfl, ?_⟩
      intro pt
      dsimp only
      simp only [sub_self, neg_zero, zero_mul, add_zero, sub_zero]
      split_ifs <;>
        simp only [rectBase, List.mem_cons, List.not_mem_nil, or_false] <;>
        constructor <;> rintro (rfl | rfl | rfl | rfl) <;> tauto
    · have hx : x2 = x1 := by linarith
      subst hx
      intro P hP Q hQ
      simp only [RoadSegment.objPrisms, RoadSegment.gltfBoxes, if_neg hskip,
        List.mem_cons, List.not_mem_nil, or_false] at hP hQ
      subst hP
      subst hQ
      refine ⟨rfl, rfl, ?_⟩
      intro pt
      dsimp only
      simp only [sub_self, neg_zero, zero_mul, mul_zero, add_zero, sub_zero]
      split_ifs <;>
        simp only [rectBase, List.mem_cons, List.not_mem_nil, or_false] <;>
        constructor <;> rintro (rfl | rfl | rfl | rfl) <;> tauto

/-- Counterexample for C1 as stated: for the diagonal local road from
(0,0) to (3,4) (length 5, so `sqrt` is exact), the text export emits the
oriented quad, one of whose corners is (0.32, -0.24), while the binary
export accumulates the axis-aligned rectangle obtained from two opposite
offset corners, whose corner set does not contain that point — the two
exporters do not emit the same set of boxes for this road segment.  (The
base (x,y) corners are unaffected by the (x,y,z) to (x,z,y) remap, which
touches only the elevation axis.) -/
theorem obj_gltf_road_cex :
    ((0.32 : ℚ), (-0.24 : ℚ)) ∈ (roadCE.objPrisms sqCE).flatMap Prism.base
    ∧ ((0.32 : ℚ), (-0.24 : ℚ)) ∉ (roadCE.gltfBoxes sqCE).flatMap fun q => rectBase q.2.1 := by
  constructor
  · norm_num [roadCE, sqCE, RoadSegment.objPrisms, roadWidth, List.mem_flatMap, Prism.base]
  · norm_num [roadCE, sqCE, RoadSegment.gltfBoxes, roadWidth, rectBase, List.mem_flatMap]

/-- Witness for C1 (amended) at the residential building `bW` and the
axis-aligned arterial road `roadAx`. -/
theorem obj_gltf_same_boxes_w :
    (bW.gltfBoxes.map fun q => Prism.mk (rectBase q.2.1) q.2.2.1 q.2.2.2) = bW.objPrisms
    ∧ (roadAx.objPrisms sqAx).length = 1
    ∧ (roadAx.gltfBoxes sqAx).length = 1
    ∧ ∀ P ∈ roadAx.objPrisms sqAx, ∀ Q ∈ roadAx.gltfBoxes sqAx,
        P.baseZ = Q.2.2.1 ∧ P.topZ = Q.2.2.2
        ∧ ∀ pt : ℚ × ℚ, (pt ∈ P.base ↔ pt ∈ rectBase Q.2.1) :=
  obj_gltf_same_boxes bW sqAx roadAx (by norm_num [sqAx, roadAx])
    (Or.inl (by norm_num [roadAx]))
